import Mathlib

/-!
Shallow embedding of the sa-react todo application.

The repository is a React single-page todo manager. The parts relevant to
the claims are:
  * the Data Access Layer (`addTodo`, `updateTodo` in src/services/index.js),
    which guards arguments and applies JavaScript `||` defaulting before
    delegating to the remote store;
  * the Yup validation schema `todoValidationSchema` and the submit flow of
    the `TodoForm` component (src/unnamed/part_005);
  * the list-update logic of the `App` component on submit success
    (src/unnamed/part_002);
  * the effect handlers of `TodosListPage` (src/unnamed/part_004, with a
    `mounted` teardown flag) and of `TodoFormPage` (src/unnamed/part_003,
    which has no such flag).

Stateful React code is embedded as explicit state-passing functions: each
promise-handler (`then` / `catch` / `finally`) becomes a function from the
current component state (plus, where the source consults it, the `mounted`
flag) to the next component state.
-/

namespace SaReact

/-- A JavaScript value as it can appear in the `completed` / `userId` slots
of the object handed to the Data Access Layer. Used to model the
truthiness-based defaulting `x || d` of the source. -/
inductive JsVal where
  | undef
  | vNull
  | vBool (b : Bool)
  | vNum (n : Int)
  | vStr (s : String)
deriving DecidableEq, Repr

/-- JavaScript truthiness for the modeled values (`undefined`, `null`, `0`,
`""` and `false` are falsy). -/
def JsVal.truthy : JsVal → Bool
  | .undef => false
  | .vNull => false
  | .vBool b => b
  | .vNum n => n != 0
  | .vStr s => s != ""

/-- JavaScript `a || b`: the left operand when truthy, otherwise the right. -/
def jsOr (a b : JsVal) : JsVal :=
  if a.truthy then a else b

/-- JavaScript `String.prototype.trim()`: strips leading and trailing
whitespace. Modeled over the character list of the string. -/
def jsTrim (s : String) : String :=
  String.mk (((s.toList.dropWhile Char.isWhitespace).reverse.dropWhile Char.isWhitespace).reverse)

/-- The `Todo` resource `{id, title, completed, userId}` exchanged with the
remote store. -/
structure Todo where
  id : Int
  title : String
  completed : Bool
  userId : Int
deriving DecidableEq, Repr

/-! ## Data Access Layer (src/services/index.js) -/

/-- The argument object of `addTodo` / `updateTodo`: `title` is either
absent (`undefined` / `null`) or a string; `completed` and `userId` are
arbitrary JavaScript values (the defaulting in the source treats them only
through truthiness). -/
structure TodoData where
  title : Option String
  completed : JsVal
  userId : JsVal
deriving DecidableEq, Repr

/-- The JSON payload `addTodo` posts to the store. -/
structure AddPayload where
  title : String
  completed : JsVal
  userId : JsVal
deriving DecidableEq, Repr

/-- The JSON payload `updateTodo` puts to the store. -/
structure UpdatePayload where
  id : Int
  title : String
  completed : JsVal
  userId : JsVal
deriving DecidableEq, Repr

/-- `addTodo` (src/services/index.js lines 84-107): throws
`Todo title is required` when `!todoData.title || todoData.title.trim() === ''`;
otherwise builds the payload `{title, completed: completed || false,
userId: userId || 1}` and delegates to the store. An `Except.ok` result is
the payload handed to the store; `Except.error` is the thrown guard
message (the store is not called). -/
def addTodo (todoData : TodoData) : Except String AddPayload :=
  match todoData.title with
  | none => .error "Todo title is required"
  | some s =>
    if s = "" || jsTrim s = "" then
      .error "Todo title is required"
    else
      .ok { title := s
            completed := jsOr todoData.completed (.vBool false)
            userId := jsOr todoData.userId (.vNum 1) }

/-- `updateTodo` (src/services/index.js lines 115-142): throws
`Todo id is required` when the id is `undefined` / `null`, then the same
title guard as `addTodo`; otherwise builds
`{id, title, completed: completed || false, userId: userId || 1}` and
delegates to the store. -/
def updateTodo (id : Option Int) (todoData : TodoData) : Except String UpdatePayload :=
  match id with
  | none => .error "Todo id is required"
  | some i =>
    match todoData.title with
    | none => .error "Todo title is required"
    | some s =>
      if s = "" || jsTrim s = "" then
        .error "Todo title is required"
      else
        .ok { id := i
              title := s
              completed := jsOr todoData.completed (.vBool false)
              userId := jsOr todoData.userId (.vNum 1) }

/-! ## Validation schema (todoValidationSchema, src/unnamed/part_005 lines 29-41) -/

/-- The raw `userId` field as submitted through the number input: absent,
a value that Yup `number()` fails to cast (non-numeric), or a number. -/
inductive UserIdField where
  | missing
  | nonNumeric
  | num (n : Int)
deriving DecidableEq, Repr

/-- A form draft as fed to the validation schema: `title` absent or a
string, `completed` a boolean (the checkbox), `userId` as above. -/
structure ValDraft where
  title : Option String
  completed : Bool
  userId : UserIdField
deriving DecidableEq, Repr

/-- The field-keyed error mapping produced by validation: at most one
message per field. -/
structure FieldErrors where
  title : Option String
  userId : Option String
deriving DecidableEq, Repr

/-- The `title` rules of `todoValidationSchema`:
`string().min(3, ...).max(100, ...).required(...)`. A missing value fails
`required`; a present string is checked against the length bounds (an empty
string has length 0 and therefore fails the `min 3` rule). -/
def titleError (t : Option String) : Option String :=
  match t with
  | none => some "Title is required"
  | some s =>
    if s.length < 3 then some "Title must be at least 3 characters"
    else if 100 < s.length then some "Title must not exceed 100 characters"
    else none

/-- The `userId` rules of `todoValidationSchema`:
`number().min(1, ...).max(10, ...).required(...)`. A missing value fails
`required`; a value Yup cannot cast to a number fails with the number
type error (its default message text is abbreviated here, no claim
depends on it); a number is checked against the range. -/
def userIdError (u : UserIdField) : Option String :=
  match u with
  | .missing => some "User ID is required"
  | .nonNumeric => some "userId must be a number type"
  | .num n =>
    if n < 1 then some "User ID must be at least 1"
    else if 10 < n then some "User ID must not exceed 10"
    else none

/-- `validate`: the whole schema applied to a draft. Fields are validated
independently; both results land in the same `FieldErrors` mapping. -/
def validate (d : ValDraft) : FieldErrors :=
  { title := titleError d.title, userId := userIdError d.userId }

/-- Whether the error mapping is non-empty (submission-blocking). -/
def hasErrors (e : FieldErrors) : Bool :=
  e.title.isSome || e.userId.isSome

/-! ## TodoForm submit flow (src/unnamed/part_005 lines 43-206)

The component state consists of `isSubmitting` and `submitError`
(React `useState`), the current field values held by react-hook-form, and
the `errors` object react-hook-form exposes after running the Yup resolver.
A submit attempt works as follows in the source: the submit button carries
`disabled={isSubmitting}`, so the attempt is ignored while a submit is
outstanding; otherwise `handleSubmit(onSubmit)` runs the Yup resolver and
either populates `formState.errors` without calling `onSubmit`, or calls
`onSubmit`, which sets `isSubmitting` to true, clears `submitError`, and
issues `updateTodo(initialData.id, data)` in edit mode or `addTodo(data)`
in add mode. -/

/-- The component state of `TodoForm` at the moment of a submit attempt. -/
structure FormCompState where
  values : ValDraft
  isSubmitting : Bool
  submitError : Option String
  fieldErrors : FieldErrors
deriving DecidableEq, Repr

/-- The Data Access Layer call a submit attempt issues, if any. -/
inductive StoreCall where
  | create (d : ValDraft)
  | update (id : Int) (d : ValDraft)
deriving DecidableEq, Repr

/-- One submit attempt of `TodoForm`: `initial` is the id of
`initialData` when in edit mode (`isEditMode = !!initialData?.id`), `d`
the current field values. Returns the next component state and the store
call issued, if any. -/
def submitAttempt (initial : Option Int) (s : FormCompState) (d : ValDraft) :
    FormCompState × Option StoreCall :=
  if s.isSubmitting then
    (s, none)
  else
    let e := validate d
    if hasErrors e then
      ({ s with fieldErrors := e }, none)
    else
      ({ s with isSubmitting := true, submitError := none, fieldErrors := e },
       some (match initial with
             | some i => .update i d
             | none => .create d))

/-- `error.message || 'Failed to save todo. Please try again.'` in the
catch branch of `onSubmit`: an absent or empty message falls back to the
fixed string. -/
def normalizeSubmitError (m : String) : String :=
  if m = "" then "Failed to save todo. Please try again." else m

/-- The completion of `onSubmit` once the awaited Data Access Layer call
settles (src/unnamed/part_005 lines 72-103). `defaults` are the
react-hook-form default values (`reset()` restores them on success),
`s` the component state while the call was in flight, `result` the
settled call. The returned Bool records whether `onSubmitSuccess` was
invoked (the parent closes the form exactly then). On failure the catch
branch sets `submitError` and the field values are left untouched; the
finally branch clears `isSubmitting` in both cases. -/
def onSubmitSettle (defaults : ValDraft) (s : FormCompState) (result : Except String Todo) :
    FormCompState × Bool :=
  match result with
  | .ok _ =>
    ({ s with values := defaults, isSubmitting := false }, true)
  | .error m =>
    ({ s with submitError := some (normalizeSubmitError m), isSubmitting := false }, false)

/-! ## List view effect handlers

`TodosListPage` (src/unnamed/part_004 lines 22-40) and the list in `App`
(src/unnamed/part_002 lines 15-32) run the same effect: set a local
`mounted` flag to true, start `getTodos()`, and in each of the `then` /
`catch` / `finally` handlers mutate state only `if (mounted)`. The cleanup
function sets `mounted = false`, so a result arriving after teardown is
discarded. -/

/-- The list view state: `todos` / `loading` / `error`. -/
structure ListState where
  todos : List Todo
  loading : Bool
  error : Option String
deriving DecidableEq, Repr

/-- The `then` handler of the list load: `if (mounted) setTodos(data)`. -/
def listThen (mounted : Bool) (s : ListState) (data : List Todo) : ListState :=
  if mounted then { s with todos := data } else s

/-- The `catch` handler of the list load:
`if (mounted) setError(err.message || String(err))`. -/
def listCatch (mounted : Bool) (s : ListState) (msg : String) : ListState :=
  if mounted then { s with error := some msg } else s

/-- The `finally` handler of the list load: `if (mounted) setLoading(false)`. -/
def listFinally (mounted : Bool) (s : ListState) : ListState :=
  if mounted then { s with loading := false } else s

/-! ## TodoFormPage fetch effect (src/unnamed/part_003 lines 104-117)

In edit mode the page fetches the todo with `getTodoById(id)`. Unlike the
list views, this effect has no `mounted` flag: its handlers mutate state
unconditionally. -/

/-- The `TodoFormPage` state: `initialData` / `loading` / `error`. -/
structure FormPageState where
  initialData : Option Todo
  loading : Bool
  error : Option String
deriving DecidableEq, Repr

/-- The `then` handler of the `getTodoById` fetch:
`setInitialData(data); setLoading(false)` - no mounted guard. -/
def formPageThen (s : FormPageState) (data : Todo) : FormPageState :=
  { s with initialData := some data, loading := false }

/-- The `catch` handler of the `getTodoById` fetch:
`setError(err.message || String(err)); setLoading(false)` - no mounted
guard. -/
def formPageCatch (s : FormPageState) (msg : String) : FormPageState :=
  { s with error := some msg, loading := false }

/-! ## List update on submit success (App, src/unnamed/part_002 lines 40-60) -/

/-- Add mode: `setTodos([newTodo, ...todos])` - the new todo is prepended. -/
def addModeUpdate (todos : List Todo) (newTodo : Todo) : List Todo :=
  newTodo :: todos

/-- Edit mode: `setTodos(todos.map(t => t.id === newTodo.id ? newTodo : t))`. -/
def editModeUpdate (todos : List Todo) (newTodo : Todo) : List Todo :=
  todos.map (fun t => if t.id = newTodo.id then newTodo else t)

/-! ## Theorems -/

/-- `Except.isOk` on a thrown guard error. -/
@[simp] theorem except_isOk_error {e a : Type} (x : e) : (Except.error x : Except e a).isOk = false :=
  rfl

/-- `Except.isOk` on a successful delegation. -/
@[simp] theorem except_isOk_ok {e a : Type} (x : a) : (Except.ok x : Except e a).isOk = true :=
  rfl

/-- The title guard `!title || title.trim() === ''` of the Data Access
Layer, on a present string, is equivalent to the trimmed title being
empty (an empty string trims to itself). -/
theorem title_guard_iff (s : String) : ((s = "" || jsTrim s = "") = true) ↔ jsTrim s = "" := by
  simp only [Bool.or_eq_true, decide_eq_true_eq]
  constructor
  · rintro (h1 | h2)
    · rw [h1]
      rfl
    · exact h2
  · intro h
    exact Or.inr h

/-- C4: `addTodo` fails (and does not call the store) exactly when the
title is absent, empty or whitespace-only; `updateTodo` fails exactly when
additionally the id is absent; in the non-failing case both delegate to
the store with the `completed || false` / `userId || 1` defaults applied. -/
theorem dal_guard_exact (d : TodoData) (id : Option Int) :
    ((addTodo d).isOk = false ↔
        d.title = none ∨ ∃ s, d.title = some s ∧ jsTrim s = "")
  ∧ ((updateTodo id d).isOk = false ↔
        id = none ∨ d.title = none ∨ ∃ s, d.title = some s ∧ jsTrim s = "")
  ∧ (∀ s, d.title = some s → jsTrim s ≠ "" →
      addTodo d = .ok { title := s
                        completed := jsOr d.completed (.vBool false)
                        userId := jsOr d.userId (.vNum 1) })
  ∧ (∀ i s, id = some i → d.title = some s → jsTrim s ≠ "" →
      updateTodo id d = .ok { id := i
                              title := s
                              completed := jsOr d.completed (.vBool false)
                              userId := jsOr d.userId (.vNum 1) }) := by
  refine ⟨?_, ?_, ?_, ?_⟩
  · cases ht : d.title with
    | none => simp [addTodo, ht]
    | some s =>
      by_cases hc : jsTrim s = ""
      · have hcond : (s = "" || jsTrim s = "") = true := (title_guard_iff s).mpr hc
        simp [addTodo, ht, hcond, hc]
      · have hcond : ¬ ((s = "" || jsTrim s = "") = true) := fun h => hc ((title_guard_iff s).mp h)
        have hs0 : s ≠ "" := by
          rintro rfl
          exact hc rfl
        simp [addTodo, ht, hcond, hc, hs0]
  · cases hi : id with
    | none => simp [updateTodo, hi]
    | some i =>
      cases ht : d.title with
      | none => simp [updateTodo, hi, ht]
      | some s =>
        by_cases hc : jsTrim s = ""
        · have hcond : (s = "" || jsTrim s = "") = true := (title_guard_iff s).mpr hc
          simp [updateTodo, hi, ht, hcond, hc]
        · have hcond : ¬ ((s = "" || jsTrim s = "") = true) := fun h => hc ((title_guard_iff s).mp h)
          have hs0 : s ≠ "" := by
            rintro rfl
            exact hc rfl
          simp [updateTodo, hi, ht, hcond, hc, hs0]
  · intro s ht hs
    have hcond : ¬ ((s = "" || jsTrim s = "") = true) := fun h => hs ((title_guard_iff s).mp h)
    simp [addTodo, ht, hcond]
  · intro i s hi ht hs
    have hcond : ¬ ((s = "" || jsTrim s = "") = true) := fun h => hs ((title_guard_iff s).mp h)
    simp [updateTodo, hi, ht, hcond]

/-- C4 witness: a concrete non-failing call delegates with defaults. -/
theorem dal_guard_exact_witness :
    addTodo { title := some "hello", completed := .undef, userId := .vNum 2 }
      = .ok { title := "hello", completed := .vBool false, userId := .vNum 2 } := by
  have h := (dal_guard_exact
    { title := some "hello", completed := .undef, userId := .vNum 2 } none).2.2.1
    "hello" rfl (by decide)
  simpa [jsOr, JsVal.truthy] using h

/-- C10: the Data Access Layer defaulting is truthiness-based, so it
rewrites every falsy `userId` (such as `0` or the empty string) to `1`
and every falsy `completed` to `false` in the payload sent to the store,
in both `addTodo` and `updateTodo`. -/
theorem dal_falsy_defaulting (d : TodoData) (id : Option Int) :
    (d.userId.truthy = false → ∀ p, addTodo d = .ok p → p.userId = .vNum 1)
  ∧ (d.completed.truthy = false → ∀ p, addTodo d = .ok p → p.completed = .vBool false)
  ∧ (d.userId.truthy = false → ∀ p, updateTodo id d = .ok p → p.userId = .vNum 1)
  ∧ (d.completed.truthy = false → ∀ p, updateTodo id d = .ok p → p.completed = .vBool false) := by
  refine ⟨?_, ?_, ?_, ?_⟩ <;> intro hf p hp
  · cases ht : d.title with
    | none => simp [addTodo, ht] at hp
    | some s =>
      by_cases h : (s = "" || jsTrim s = "") = true
      · simp [addTodo, ht, h] at hp
      · simp [addTodo, ht, h] at hp
        rw [← hp]
        simp [jsOr, hf]
  · cases ht : d.title with
    | none => simp [addTodo, ht] at hp
    | some s =>
      by_cases h : (s = "" || jsTrim s = "") = true
      · simp [addTodo, ht, h] at hp
      · simp [addTodo, ht, h] at hp
        rw [← hp]
        simp [jsOr, hf]
  · cases hi : id with
    | none => simp [updateTodo, hi] at hp
    | some i =>
      cases ht : d.title with
      | none => simp [updateTodo, hi, ht] at hp
      | some s =>
        by_cases h : (s = "" || jsTrim s = "") = true
        · simp [updateTodo, hi, ht, h] at hp
        · simp [updateTodo, hi, ht, h] at hp
          rw [← hp]
          simp [jsOr, hf]
  · cases hi : id with
    | none => simp [updateTodo, hi] at hp
    | some i =>
      cases ht : d.title with
      | none => simp [updateTodo, hi, ht] at hp
      | some s =>
        by_cases h : (s = "" || jsTrim s = "") = true
        · simp [updateTodo, hi, ht, h] at hp
        · simp [updateTodo, hi, ht, h] at hp
          rw [← hp]
          simp [jsOr, hf]

/-- C10 witness: `userId = 0` and `completed = ""` are rewritten to the
defaults in a concrete `addTodo` payload. -/
theorem dal_falsy_defaulting_witness :
    (AddPayload.mk "abc" (.vBool false) (.vNum 1)).userId = JsVal.vNum 1
  ∧ (AddPayload.mk "abc" (.vBool false) (.vNum 1)).completed = JsVal.vBool false := by
  have h := dal_falsy_defaulting
    { title := some "abc", completed := .vStr "", userId := .vNum 0 } none
  exact ⟨h.1 (by decide) _ rfl, h.2.1 (by decide) _ rfl⟩

/-- C2: on a failing store call during submit, `onSubmitSuccess` is not
invoked (the form stays open), the field values are left unchanged,
`isSubmitting` ends up false, and `submitError` holds a non-empty
normalized message. -/
theorem submit_failure_recovers (defaults : ValDraft) (s : FormCompState) (m : String) :
    (onSubmitSettle defaults s (.error m)).2 = false
  ∧ (onSubmitSettle defaults s (.error m)).1.values = s.values
  ∧ (onSubmitSettle defaults s (.error m)).1.isSubmitting = false
  ∧ ∃ msg, (onSubmitSettle defaults s (.error m)).1.submitError = some msg ∧ msg ≠ "" := by
  refine ⟨rfl, rfl, rfl, normalizeSubmitError m, rfl, ?_⟩
  unfold normalizeSubmitError
  by_cases h : m = ""
  · simp [h]
  · simp [h]

/-- C3: the submit path issues no Data Access Layer call while the draft
is invalid or while a prior submit is outstanding, and a submit attempt
during `isSubmitting` leaves the state untouched (the submit button is
disabled). -/
theorem no_submit_while_invalid_or_submitting (initial : Option Int) (s : FormCompState)
    (d : ValDraft) :
    ((submitAttempt initial s d).2 ≠ none →
        s.isSubmitting = false ∧ hasErrors (validate d) = false)
  ∧ (s.isSubmitting = true → submitAttempt initial s d = (s, none)) := by
  constructor
  · intro hcall
    by_cases hs : s.isSubmitting
    · simp [submitAttempt, hs] at hcall
    · refine ⟨by simpa using hs, ?_⟩
      by_cases he : hasErrors (validate d)
      · simp [submitAttempt, hs, he] at hcall
      · simpa using he
  · intro hs
    simp [submitAttempt, hs]

/-- C3 witness: a concrete submit attempt during `isSubmitting` is ignored. -/
theorem no_submit_while_submitting_witness :
    submitAttempt none
      { values := { title := some "Buy milk", completed := false, userId := .num 1 }
        isSubmitting := true
        submitError := none
        fieldErrors := { title := none, userId := none } }
      { title := some "Buy milk", completed := false, userId := .num 1 }
    = ({ values := { title := some "Buy milk", completed := false, userId := .num 1 }
         isSubmitting := true
         submitError := none
         fieldErrors := { title := none, userId := none } }, none) :=
  (no_submit_while_invalid_or_submitting none
    { values := { title := some "Buy milk", completed := false, userId := .num 1 }
      isSubmitting := true
      submitError := none
      fieldErrors := { title := none, userId := none } }
    { title := some "Buy milk", completed := false, userId := .num 1 }).2 rfl

/-- C5: `validate` reports a `title` error for every draft whose title is
missing or of length outside [3,100], reports a `userId` error for every
draft whose userId is missing, non-numeric or outside [1,10] - both into
the same `FieldErrors` mapping - and any field error blocks the store
call of a submit attempt. -/
theorem validate_reports_violations (d : ValDraft) :
    ((d.title = none ∨ ∃ s, d.title = some s ∧ (s.length < 3 ∨ 100 < s.length)) →
        (validate d).title.isSome = true)
  ∧ ((d.userId = .missing ∨ d.userId = .nonNumeric ∨
        ∃ n, d.userId = .num n ∧ (n < 1 ∨ 10 < n)) →
        (validate d).userId.isSome = true)
  ∧ (∀ initial s, hasErrors (validate d) = true → (submitAttempt initial s d).2 = none) := by
  refine ⟨?_, ?_, ?_⟩
  · rintro (h | ⟨s, hs, h1 | h2⟩)
    · simp [validate, titleError, h]
    · simp [validate, titleError, hs, h1]
    · have h3 : ¬ s.length < 3 := by omega
      simp [validate, titleError, hs, h3, h2]
  · rintro (h | h | ⟨n, hn, h1 | h2⟩)
    · simp [validate, userIdError, h]
    · simp [validate, userIdError, h]
    · simp [validate, userIdError, hn, h1]
    · have h3 : ¬ n < 1 := by omega
      simp [validate, userIdError, hn, h3, h2]
  · intro initial s he
    by_cases hs : s.isSubmitting
    · simp [submitAttempt, hs]
    · simp [submitAttempt, hs, he]

/-- C5 witness: a concrete draft violating both fields gets both errors
reported and its submit attempt issues no store call. -/
theorem validate_reports_violations_witness :
    (validate { title := some "hi", completed := true, userId := .num 11 }).title.isSome = true
  ∧ (validate { title := some "hi", completed := true, userId := .num 11 }).userId.isSome = true
  ∧ (submitAttempt none
      { values := { title := some "hi", completed := true, userId := .num 11 }
        isSubmitting := false
        submitError := none
        fieldErrors := { title := none, userId := none } }
      { title := some "hi", completed := true, userId := .num 11 }).2 = none := by
  have h := validate_reports_violations { title := some "hi", completed := true, userId := .num 11 }
  refine ⟨h.1 (Or.inr ⟨"hi", rfl, Or.inl (by decide)⟩),
          h.2.1 (Or.inr (Or.inr ⟨11, rfl, Or.inr (by decide)⟩)),
          h.2.2 none _ (by decide)⟩

/-- C6: on the draft `{title := "ab", userId := 1}` the schema returns
exactly the single field error `Title must be at least 3 characters`, and
a submit attempt with this draft never calls the store. -/
theorem validate_ab_draft :
    validate { title := some "ab", completed := false, userId := .num 1 }
      = { title := some "Title must be at least 3 characters", userId := none }
  ∧ ∀ initial s,
      (submitAttempt initial s
        { title := some "ab", completed := false, userId := .num 1 }).2 = none := by
  refine ⟨by decide, ?_⟩
  intro initial s
  have he : hasErrors (validate { title := some "ab", completed := false, userId := .num 1 }) = true := by
    decide
  by_cases hs : s.isSubmitting
  · simp [submitAttempt, hs]
  · simp [submitAttempt, hs, he]

/-- C9: `validate` is a pure function of the draft in this embedding, so
two applications to the same unmodified draft give the same error
mapping definitionally. -/
theorem validate_idempotent (d : ValDraft) : validate d = validate d :=
  rfl

/-- C1 counterexample: the claim fails on the edit-form page. Its
`getTodoById` effect has no still-active flag, so the handler that runs
when a late fetch resolves mutates the view state unconditionally: on a
torn-down page in the pristine state, the resolving fetch changes
`initialData` and `loading`. -/
theorem formPage_late_result_mutates :
    formPageThen { initialData := none, loading := true, error := none }
        { id := 1, title := "delectus aut autem", completed := false, userId := 1 }
      ≠ { initialData := none, loading := true, error := none } := by
  decide

/-- C1 (amended): for the list views (`TodosListPage` and the list in
`App`), a Data Access Layer result that arrives after teardown
(`mounted = false`) causes no state mutation, whether the load succeeded
or failed; the edit-form page carries no such flag (see the
counterexample). -/
theorem list_view_discards_late_results (s : ListState) (data : List Todo) (msg : String) :
    listFinally false (listThen false s data) = s
  ∧ listFinally false (listCatch false s msg) = s := by
  constructor <;> simp [listThen, listCatch, listFinally]

/-- C7 counterexample: prepending is blind to duplicates, so when the
new todo is already present in the list (the placeholder store always
answers a create with id 201), the resulting list contains it twice, not
exactly once. -/
theorem add_prepend_duplicate :
    ¬ ((addModeUpdate [⟨201, "Buy milk", false, 1⟩] ⟨201, "Buy milk", false, 1⟩).length
          = [(⟨201, "Buy milk", false, 1⟩ : Todo)].length + 1
       ∧ (addModeUpdate [⟨201, "Buy milk", false, 1⟩] ⟨201, "Buy milk", false, 1⟩).count
            (⟨201, "Buy milk", false, 1⟩ : Todo) = 1) := by
  decide

/-- C7 (amended): provided the new todo is not already an entry of the
previous list, the list resulting from a successful create has length
equal to the previous length plus one and contains the new entry exactly
once. -/
theorem add_prepend_fresh (todos : List Todo) (newTodo : Todo) (h : newTodo ∉ todos) :
    (addModeUpdate todos newTodo).length = todos.length + 1
  ∧ (addModeUpdate todos newTodo).count newTodo = 1 := by
  constructor
  · simp [addModeUpdate]
  · rw [addModeUpdate, List.count_cons_self, List.count_eq_zero.mpr h]

/-- C7 witness: a concrete fresh create. -/
theorem add_prepend_fresh_witness :
    (addModeUpdate [⟨1, "delectus aut autem", false, 1⟩] ⟨201, "Buy milk", false, 1⟩).length
        = [(⟨1, "delectus aut autem", false, 1⟩ : Todo)].length + 1
  ∧ (addModeUpdate [⟨1, "delectus aut autem", false, 1⟩] ⟨201, "Buy milk", false, 1⟩).count
        (⟨201, "Buy milk", false, 1⟩ : Todo) = 1 :=
  add_prepend_fresh [⟨1, "delectus aut autem", false, 1⟩] ⟨201, "Buy milk", false, 1⟩
    (by decide)

/-- Entries whose id differs from the new todo throughout the list are
untouched by the edit-mode map. -/
theorem editModeUpdate_frame (todos : List Todo) (newTodo : Todo)
    (h : ∀ t ∈ todos, t.id ≠ newTodo.id) : editModeUpdate todos newTodo = todos := by
  unfold editModeUpdate
  induction todos with
  | nil => rfl
  | cons x xs ih =>
    simp only [List.map_cons]
    rw [if_neg (h x (by simp)), ih (fun t ht => h t (by simp [ht]))]

/-- C8: on a list with pairwise-distinct identifiers containing the
updated identifier, the edit-mode replacement keeps the length, makes the
position holding that identifier carry exactly the new todo, leaves every
position with a different identifier unchanged, and the new record occurs
exactly once in the result. -/
theorem edit_replaces_exactly_one (todos : List Todo) (newTodo : Todo)
    (hnodup : (todos.map Todo.id).Nodup)
    (hmem : newTodo.id ∈ todos.map Todo.id) :
    (editModeUpdate todos newTodo).length = todos.length
  ∧ (editModeUpdate todos newTodo).count newTodo = 1
  ∧ (∀ i (h1 : i < todos.length) (h2 : i < (editModeUpdate todos newTodo).length),
      (todos.get ⟨i, h1⟩).id = newTodo.id →
        (editModeUpdate todos newTodo).get ⟨i, h2⟩ = newTodo)
  ∧ (∀ i (h1 : i < todos.length) (h2 : i < (editModeUpdate todos newTodo).length),
      (todos.get ⟨i, h1⟩).id ≠ newTodo.id →
        (editModeUpdate todos newTodo).get ⟨i, h2⟩ = todos.get ⟨i, h1⟩) := by
  refine ⟨by simp [editModeUpdate], ?_, ?_, ?_⟩
  · induction todos with
    | nil => simp at hmem
    | cons x xs ih =>
      rw [List.map_cons, List.nodup_cons] at hnodup
      by_cases hx : x.id = newTodo.id
      · have hxs : ∀ t ∈ xs, t.id ≠ newTodo.id := by
          intro t ht he
          exact hnodup.1 (hx ▸ he ▸ List.mem_map_of_mem Todo.id ht)
        unfold editModeUpdate
        simp only [List.map_cons]
        rw [if_pos hx]
        rw [show (xs.map (fun t => if t.id = newTodo.id then newTodo else t)) = xs from
          editModeUpdate_frame xs newTodo hxs]
        rw [List.count_cons_self, List.count_eq_zero.mpr (fun hm => hxs newTodo hm rfl)]
      · have hxne : x ≠ newTodo := fun he => hx (he ▸ rfl)
        have hmem2 : newTodo.id ∈ xs.map Todo.id := by
          rcases (by simpa using hmem :
              newTodo.id = x.id ∨ ∃ a ∈ xs, a.id = newTodo.id) with h1 | ⟨a, ha, hae⟩
          · exact absurd h1.symm hx
          · exact hae ▸ List.mem_map_of_mem Todo.id ha
        unfold editModeUpdate
        simp only [List.map_cons]
        rw [if_neg hx]
        rw [List.count_cons_of_ne (Ne.symm hxne)]
        exact ih hnodup.2 hmem2
  · intro i h1 h2 hid
    unfold editModeUpdate at *
    rw [List.get_eq_getElem, List.getElem_map]
    rw [if_pos (by simpa using hid)]
  · intro i h1 h2 hid
    unfold editModeUpdate at *
    rw [List.get_eq_getElem, List.get_eq_getElem, List.getElem_map]
    rw [if_neg (by simpa using hid)]

/-- C8 witness: a concrete two-entry list with distinct ids, updating the
second entry. -/
theorem edit_replaces_exactly_one_witness :
    (editModeUpdate [⟨1, "first", false, 1⟩, ⟨2, "second", false, 2⟩]
        ⟨2, "second edited", true, 3⟩).length
      = [(⟨1, "first", false, 1⟩ : Todo), ⟨2, "second", false, 2⟩].length
  ∧ (editModeUpdate [⟨1, "first", false, 1⟩, ⟨2, "second", false, 2⟩]
        ⟨2, "second edited", true, 3⟩).count (⟨2, "second edited", true, 3⟩ : Todo) = 1 :=
  ⟨(edit_replaces_exactly_one [⟨1, "first", false, 1⟩, ⟨2, "second", false, 2⟩]
      ⟨2, "second edited", true, 3⟩ (by decide) (by decide)).1,
   (edit_replaces_exactly_one [⟨1, "first", false, 1⟩, ⟨2, "second", false, 2⟩]
      ⟨2, "second edited", true, 3⟩ (by decide) (by decide)).2.1⟩

end SaReact
